import Mathlib

/-!
Formal model of the UDF adapter layer of `src/python/pyspark/worker.py`.

Pandas DataFrames are abstracted to their column labels and row count, UDF
results to explicit constructors, and the framed protocol to a list of
integer fields.  Every definition carries a reference to the source
function and lines it embeds.
-/

namespace SparkWorker

/-- A pandas column label: either a string label or a non-string label
(modelled as a number).  `worker.py` distinguishes them with
`isinstance(name, str)` (line 250). -/
inductive ColLabel where
  | str (s : String)
  | num (n : Nat)
deriving DecidableEq, Repr

/-- The `isinstance(name, str)` test on a column label. -/
def ColLabel.isStr : ColLabel → Bool
  | .str _ => true
  | .num _ => false

/-- A pandas DataFrame, abstracted to its column labels and its row count. -/
structure PandasDF where
  columns : List ColLabel
  nrows : Nat
deriving DecidableEq, Repr

/-- `DataFrame.empty` in pandas: true exactly when any axis has length
zero, i.e. when the frame has no rows or no columns. -/
def PandasDF.empty (df : PandasDF) : Bool :=
  df.nrows == 0 || df.columns.length == 0

/-- The error kinds raised by the adapter layer (the `error_class` values
of the `PySparkRuntimeError` / `PySparkTypeError` raises in worker.py,
plus the plain Python errors the code can raise). -/
inductive PySparkError where
  | udfReturnType (expected actual : String)
  | schemaMismatch (expected actual : Nat)
  | resultColumnsMismatch
  | resultLengthMismatch (expected actual : Nat)
  | scalarIterOutputOverrun
  | stopIterationFromScalarIter
  | scalarIterLengthMismatch (outLen inLen : Nat)
  | missingEvalMethod
  | attributeError (name : String)
deriving DecidableEq, Repr

/-- Python set equality of two label lists (`set(xs) == set(ys)`). -/
def sameLabelSet (a b : List ColLabel) : Bool :=
  a.all (fun x => b.contains x) && b.all (fun x => a.contains x)

/-- `verify_pandas_result` (worker.py lines 223-280), `StructType` branch.
`fields` lists the declared field names of the struct return type.  The
`isinstance(result, pd.DataFrame)` type check is outside the model: results
here are always DataFrames.  The definition mirrors the guard
`if not result.empty or len(result.columns) != 0` (line 237), the
truncation of the result columns to the size of the *set* of field names
(lines 241-246), the name-set check (lines 248-265) and the column-count
check (lines 267-274, whose reported actual count is the untruncated
column count). -/
def verify_pandas_result (result : PandasDF) (fields : List String)
    (assign_cols_by_name truncate_return_schema : Bool) :
    Except PySparkError Unit :=
  if !result.empty || result.columns.length != 0 then
    let field_names : List String := fields.dedup
    let result_columns : List ColLabel :=
      if truncate_return_schema then result.columns.take field_names.length
      else result.columns
    let column_names := result_columns
    if assign_cols_by_name && result.columns.any ColLabel.isStr
        && !(sameLabelSet column_names (field_names.map ColLabel.str)) then
      .error .resultColumnsMismatch
    else if result_columns.length != fields.length then
      .error (.resultLengthMismatch fields.length result.columns.length)
    else
      .ok ()
  else
    .ok ()

/-- The per-group state handle of `applyInPandasWithState`, reduced to the
only field worker.py reads: `state.hasTimedOut` (line 390). -/
structure GroupStateModel where
  hasTimedOut : Bool
deriving DecidableEq, Repr

/-- `verify_element` inside `wrap_grouped_map_pandas_udf_with_state`
(worker.py lines 400-423): an element of the result iterator is accepted
when its column count equals the declared field count, or when it has no
columns and its `empty` flag holds; otherwise
`RESULT_LENGTH_MISMATCH_FOR_PANDAS_UDF` is raised.  The
`isinstance(result, pd.DataFrame)` check is outside the model. -/
def verify_element (returnTypeLen : Nat) (result : PandasDF) :
    Except PySparkError PandasDF :=
  if result.columns.length == returnTypeLen
      || (result.columns.length == 0 && result.empty) then
    .ok result
  else
    .error (.resultLengthMismatch returnTypeLen result.columns.length)

/-- Element-wise validation of a result sequence, stopping at the first
failing element — the behaviour of consuming the generator
`(verify_element(x) for x in result_iter)` (worker.py line 442). -/
def mapExcept (f : PandasDF → Except PySparkError PandasDF) :
    List PandasDF → Except PySparkError (List PandasDF)
  | [] => .ok []
  | a :: rest => do
    let b ← f a
    let bs ← mapExcept f rest
    pure (b :: bs)

/-- `wrapped` inside `wrap_grouped_map_pandas_udf_with_state` (worker.py
lines 376-447).  The elements of `value_series_gen` stand for the already
concatenated value DataFrames (`pd.concat(x, axis=1)`).  When the state
has timed out, the user function receives a single zero-row DataFrame
carrying the columns of the first value batch (line 392-394); otherwise it
receives the value batches themselves.  Each element of the returned
iterator passes through `verify_element`; the iterable-ness checks on
`result_iter` (lines 425-440) are outside the model, where results are
lists.  Validation errors surface when the iterator is consumed, modelled
by the `Except` value. -/
def wrapped_with_state
    (f : List Int → List PandasDF → GroupStateModel → List PandasDF)
    (returnTypeLen : Nat) (key : List Int) (value_series_gen : List PandasDF)
    (state : GroupStateModel) :
    Except PySparkError (List PandasDF × GroupStateModel) :=
  let values : List PandasDF :=
    if state.hasTimedOut then
      [⟨(value_series_gen.headD ⟨[], 0⟩).columns, 0⟩]
    else
      value_series_gen
  let result_iter := f key values state
  do
    let validated ← mapExcept (verify_element returnTypeLen) result_iter
    pure (validated, state)

theorem verify_element_ok {rtLen : Nat} {df df2 : PandasDF}
    (h : verify_element rtLen df = .ok df2) :
    df2 = df ∧ (df.columns.length = rtLen ∨ df.columns.length = 0) := by
  unfold verify_element at h
  split at h
  · rename_i hc
    refine ⟨by injection h with h2; exact h2.symm, ?_⟩
    rcases Bool.or_eq_true _ _ |>.mp hc with h1 | h1
    · exact Or.inl (by simpa using h1)
    · exact Or.inr (by simpa using (Bool.and_eq_true _ _ |>.mp h1).1)
  · exact absurd h (by simp)

theorem mapExcept_verify_element_mem {rtLen : Nat} :
    ∀ (l out : List PandasDF),
      mapExcept (verify_element rtLen) l = .ok out →
      ∀ df ∈ out, df.columns.length = rtLen ∨ df.columns.length = 0 := by
  intro l
  induction l with
  | nil =>
    intro out h df hmem
    unfold mapExcept at h
    injection h with h
    subst h
    simp at hmem
  | cons a rest ih =>
    intro out h df hmem
    unfold mapExcept at h
    cases ha : verify_element rtLen a with
    | error e =>
      rw [ha] at h
      simp [Bind.bind, Except.bind] at h
    | ok b =>
      rw [ha] at h
      cases hr : mapExcept (verify_element rtLen) rest with
      | error e =>
        rw [hr] at h
        simp [Bind.bind, Except.bind] at h
      | ok bs =>
        rw [hr] at h
        simp [Bind.bind, Except.bind, pure, Except.pure] at h
        subst h
        rcases List.mem_cons.mp hmem with hdf | hdf
        · subst hdf
          obtain ⟨hb, hlen⟩ := verify_element_ok ha
          subst hb
          exact hlen
        · exact ih bs hr df hdf

/-- Claim C1 (corrected): in `wrap_grouped_map_pandas_udf_with_state`, a
timed-out group invocation passes the user function a single zero-row
batch carrying the columns of the first value batch, and every element of
the validated result sequence has either the declared field count of
columns or zero columns (a zero-column pandas DataFrame counts as empty
whatever its row count, so zero rows is not guaranteed). -/
theorem c1_amended
    (f : List Int → List PandasDF → GroupStateModel → List PandasDF)
    (rtLen : Nat) (key : List Int) (b : PandasDF) (gen : List PandasDF)
    (st : GroupStateModel) (ht : st.hasTimedOut = true) :
    (wrapped_with_state f rtLen key (b :: gen) st =
      do
        let validated ← mapExcept (verify_element rtLen) (f key [⟨b.columns, 0⟩] st)
        pure (validated, st)) ∧
    (∀ out st2, wrapped_with_state f rtLen key (b :: gen) st = .ok (out, st2) →
      ∀ df ∈ out, df.columns.length = rtLen ∨ df.columns.length = 0) := by
  constructor
  · unfold wrapped_with_state
    rw [ht]
    simp
  · intro out st2 hok df hmem
    unfold wrapped_with_state at hok
    rw [ht] at hok
    simp only [if_pos] at hok
    cases hm : mapExcept (verify_element rtLen) (f key [⟨b.columns, 0⟩] st) with
    | error e =>
      rw [List.headD_cons] at hok
      rw [hm] at hok
      simp [Bind.bind, Except.bind] at hok
    | ok validated =>
      rw [List.headD_cons] at hok
      rw [hm] at hok
      simp [Bind.bind, Except.bind, pure, Except.pure] at hok
      exact mapExcept_verify_element_mem _ _ hm df (hok.1 ▸ hmem)

/-- Witness for C1: a concrete timed-out invocation whose user function
returns one single-column, one-row DataFrame. -/
theorem c1_amended_witness :
    (wrapped_with_state (fun _ _ _ => [⟨[ColLabel.str "x"], 1⟩]) 1 [0]
        [⟨[ColLabel.str "x"], 5⟩] ⟨true⟩ =
      do
        let validated ← mapExcept (verify_element 1)
          ((fun (_ : List Int) (_ : List PandasDF)
            (_ : GroupStateModel) => [(⟨[ColLabel.str "x"], 1⟩ : PandasDF)])
            [0] [⟨(⟨[ColLabel.str "x"], 5⟩ : PandasDF).columns, 0⟩] ⟨true⟩)
        pure (validated, (⟨true⟩ : GroupStateModel))) ∧
    (∀ out st2,
      wrapped_with_state (fun _ _ _ => [⟨[ColLabel.str "x"], 1⟩]) 1 [0]
          [⟨[ColLabel.str "x"], 5⟩] ⟨true⟩ = .ok (out, st2) →
      ∀ df ∈ out, df.columns.length = 1 ∨ df.columns.length = 0) :=
  c1_amended (fun _ _ _ => [⟨[ColLabel.str "x"], 1⟩]) 1 [0]
    ⟨[ColLabel.str "x"], 5⟩ [] ⟨true⟩ rfl

/-- Counterexample to C1 as stated: a timed-out invocation whose user
function returns a DataFrame with zero columns but three rows is accepted
by the validation, although that element has neither the declared column
count nor zero rows. -/
theorem c1_counterexample :
    wrapped_with_state (fun _ _ _ => [⟨[], 3⟩]) 2 [0]
        [⟨[ColLabel.str "a"], 5⟩] ⟨true⟩
      = .ok ([⟨[], 3⟩], ⟨true⟩) ∧
    ¬ ((([] : List ColLabel).length = 2) ∨
       ((([] : List ColLabel).length = 0) ∧ (3 : Nat) = 0)) := by
  constructor
  · rfl
  · decide

/-- Counterexample to C2 as stated: a zero-row structured result that
still has columns does not skip the checks — with declared fields
`["a", "b"]` and result columns `["a", "b", "c"]` the name-set check
raises `RESULT_COLUMNS_MISMATCH_FOR_PANDAS_UDF` even though the result
has zero rows. -/
theorem c2_counterexample :
    verify_pandas_result
        ⟨[ColLabel.str "a", ColLabel.str "b", ColLabel.str "c"], 0⟩
        ["a", "b"] true false
      = .error .resultColumnsMismatch := by
  rfl

/-- Claim C2 (corrected): `verify_pandas_result` skips the name-set and
column-count checks exactly for a structured result with zero columns;
the guard `not result.empty or len(result.columns) != 0` is equivalent to
the result having at least one column, so a zero-row result that has
columns is still checked. -/
theorem c2_amended (result : PandasDF) (fields : List String)
    (a t : Bool) :
    (result.columns = [] →
      verify_pandas_result result fields a t = .ok ()) ∧
    ((!result.empty || result.columns.length != 0)
      = (result.columns.length != 0)) := by
  obtain ⟨cols, n⟩ := result
  constructor
  · intro h
    simp only at h
    subst h
    unfold verify_pandas_result
    simp [PandasDF.empty]
  · cases cols <;> simp [PandasDF.empty]

/-- Witness for C2: a column-less result with seven rows passes
verification untouched. -/
theorem c2_amended_witness :
    verify_pandas_result ⟨[], 7⟩ ["a"] true false = .ok () ∧
    ((!(⟨[], 7⟩ : PandasDF).empty
        || (⟨[], 7⟩ : PandasDF).columns.length != 0)
      = ((⟨[], 7⟩ : PandasDF).columns.length != 0)) :=
  ⟨(c2_amended ⟨[], 7⟩ ["a"] true false).1 rfl,
   (c2_amended ⟨[], 7⟩ ["a"] true false).2⟩

/-! ### Table functions with PARTITION BY (worker.py `UDTFWithPartitions`) -/

/-- Observable events of the table-function lifecycle: handler-instance
construction, `terminate` calls, and `eval` calls, each tagged with the
identity of the handler instance involved. -/
inductive UdtfEvent where
  | create (id : Nat)
  | terminate (id : Nat)
  | evalRow (id : Nat) (row : List Int)
deriving DecidableEq, Repr

def UdtfEvent.isCreate : UdtfEvent → Bool
  | .create _ => true
  | _ => false

def UdtfEvent.isTerminate : UdtfEvent → Bool
  | .terminate _ => true
  | _ => false

/-- The mutable fields of `UDTFWithPartitions` (worker.py lines 664-739):
the current handler instance (identified by a counter), the counter for
the next instance, and `self._prev_arguments` (empty list when no row has
been seen yet, as in `__init__`). -/
structure PartitionedUdtfState where
  curId : Nat
  nextId : Nat
  prevArguments : List Int
deriving DecidableEq, Repr

/-- `UDTFWithPartitions._check_partition_boundaries` (worker.py lines
723-736): when a previous row exists, compare the values at the
partition-key column indexes of the current and previous table rows; the
boundary changed when any pair differs.  `self._prev_arguments` is set to
the current arguments in both branches.  The table row itself stands for
the `Row`-typed argument selected by `_get_table_arg`. -/
def check_partition_boundaries (partition_child_indexes : List Nat)
    (st : PartitionedUdtfState) (arguments : List Int) :
    Bool × PartitionedUdtfState :=
  if st.prevArguments.length > 0 then
    let cur := partition_child_indexes.map (fun i => arguments.getD i 0)
    let prev := partition_child_indexes.map (fun i => st.prevArguments.getD i 0)
    ((cur.zip prev).any (fun p => p.1 != p.2),
     { st with prevArguments := arguments })
  else
    (false, { st with prevArguments := arguments })

/-- `UDTFWithPartitions.eval` (worker.py lines 701-716) for a handler
exposing both `eval` and `terminate`: on a partition boundary, terminate
the current instance, then construct a fresh instance, then evaluate the
incoming row on it; otherwise just evaluate the row. -/
def udtf_partition_eval (partition_child_indexes : List Nat)
    (st : PartitionedUdtfState) (arguments : List Int) :
    PartitionedUdtfState × List UdtfEvent :=
  let r := check_partition_boundaries partition_child_indexes st arguments
  if r.1 then
    let st2 := { r.2 with curId := r.2.nextId, nextId := r.2.nextId + 1 }
    (st2, [.terminate r.2.curId, .create r.2.nextId, .evalRow st2.curId arguments])
  else
    (r.2, [.evalRow r.2.curId arguments])

/-- One task through `UDTFWithPartitions`: `__init__` (line 697) creates
the first handler instance, each input row goes through `eval`, and the
`finally` clause of `read_udtf.mapper` (lines 925-927) calls `terminate`
once at end of input. -/
def udtf_partition_run (partition_child_indexes : List Nat)
    (rows : List (List Int)) : List UdtfEvent :=
  let st0 : PartitionedUdtfState := ⟨0, 1, []⟩
  let start : PartitionedUdtfState × List UdtfEvent := (st0, [.create 0])
  let fin := rows.foldl
    (fun acc row =>
      let r := udtf_partition_eval partition_child_indexes acc.1 row
      (r.1, acc.2 ++ r.2))
    start
  fin.2 ++ [.terminate fin.1.curId]

/-- Claim C3: with partition-key column `[0]` and key sequence
`[1,1,2,2,1]`, the lifecycle terminates the current instance exactly at
the two key changes (1 to 2, and 2 back to 1), creating a fresh instance
before evaluating the boundary row, plus one final terminate at end of
input; exactly 3 instances are created and terminate runs exactly 3
times. -/
theorem c3_partition_lifecycle :
    udtf_partition_run [0] [[1], [1], [2], [2], [1]] =
      [.create 0, .evalRow 0 [1], .evalRow 0 [1],
       .terminate 0, .create 1, .evalRow 1 [2], .evalRow 1 [2],
       .terminate 1, .create 2, .evalRow 2 [1],
       .terminate 2] ∧
    (udtf_partition_run [0] [[1], [1], [2], [2], [1]]).countP
      UdtfEvent.isCreate = 3 ∧
    (udtf_partition_run [0] [[1], [1], [2], [2], [1]]).countP
      UdtfEvent.isTerminate = 3 := by
  refine ⟨rfl, rfl, rfl⟩

/-! ### Scalar-iterator adapter (worker.py `read_udfs.func`, lines 1028-1075) -/

/-- Interaction of the user's iterator UDF with its input iterator: it
either pulls the next input batch or emits an output batch of a given row
count.  A pull on an exhausted input simply yields nothing (the user's
`for` loop over the iterator ends). -/
inductive UdfAction where
  | pull
  | emit (n : Nat)
deriving DecidableEq, Repr

/-- The mutable state of `read_udfs.func` for a SCALAR_ITER task: the
input batches not yet pulled, the `num_input_rows` and `num_output_rows`
counters, and the output batches yielded so far. -/
structure ScalarIterState where
  remInputs : List Nat
  numInputRows : Nat
  numOutputRows : Nat
  outputs : List Nat
deriving DecidableEq, Repr

/-- The consumption loop of `read_udfs.func` (worker.py lines 1041-1055):
pulling an input batch adds its length to `num_input_rows` (`map_batch`);
each emitted output batch adds to `num_output_rows` and the loop asserts
`num_output_rows <= num_input_rows` immediately, before requesting
anything further from the UDF. -/
def scalar_iter_loop :
    ScalarIterState → List UdfAction → Except PySparkError ScalarIterState
  | st, [] => .ok st
  | st, .pull :: rest =>
    match st.remInputs with
    | [] => scalar_iter_loop st rest
    | b :: bs =>
      scalar_iter_loop
        { st with remInputs := bs, numInputRows := st.numInputRows + b } rest
  | st, .emit n :: rest =>
    let st2 := { st with numOutputRows := st.numOutputRows + n,
                         outputs := st.outputs ++ [n] }
    if st2.numOutputRows > st2.numInputRows then
      .error .scalarIterOutputOverrun
    else
      scalar_iter_loop st2 rest

/-- The post-loop checks of `read_udfs.func` (worker.py lines 1057-1075):
if the input iterator still yields a batch, raise
`STOP_ITERATION_OCCURRED_FROM_SCALAR_ITER_PANDAS_UDF`; otherwise the
totals must agree or `RESULT_LENGTH_MISMATCH_FOR_SCALAR_ITER_PANDAS_UDF`
is raised. -/
def scalar_iter_finish (st : ScalarIterState) :
    Except PySparkError (List Nat) :=
  match st.remInputs with
  | _ :: _ => .error .stopIterationFromScalarIter
  | [] =>
    if st.numOutputRows != st.numInputRows then
      .error (.scalarIterLengthMismatch st.numOutputRows st.numInputRows)
    else
      .ok st.outputs

/-- `read_udfs.func` for a SCALAR_ITER task, over input batch lengths and
the action script of the user UDF. -/
def scalar_iter_func (inputs : List Nat) (script : List UdfAction) :
    Except PySparkError (List Nat) :=
  match scalar_iter_loop ⟨inputs, 0, 0, []⟩ script with
  | .error e => .error e
  | .ok st => scalar_iter_finish st

/-- Claim C4: the scalar-iterator adapter raises an overrun error at the
very emission that makes cumulative output exceed cumulative input,
ignoring everything the UDF would do afterwards; and once the UDF is
done, leftover input raises the stop-iteration error while unequal totals
raise the length-mismatch error, so nothing is silently truncated. -/
theorem c4_scalar_iter (inputs : List Nat) (script : List UdfAction)
    (st : ScalarIterState) (k : Nat) (rest : List UdfAction) :
    (st.numOutputRows + k > st.numInputRows →
      scalar_iter_loop st (.emit k :: rest) = .error .scalarIterOutputOverrun) ∧
    (scalar_iter_loop ⟨inputs, 0, 0, []⟩ script = .ok st →
      st.remInputs ≠ [] →
      scalar_iter_func inputs script = .error .stopIterationFromScalarIter) ∧
    (scalar_iter_loop ⟨inputs, 0, 0, []⟩ script = .ok st →
      st.remInputs = [] → st.numOutputRows ≠ st.numInputRows →
      scalar_iter_func inputs script =
        .error (.scalarIterLengthMismatch st.numOutputRows st.numInputRows)) := by
  refine ⟨?_, ?_, ?_⟩
  · intro h
    unfold scalar_iter_loop
    rw [if_pos h]
  · intro hok hrem
    cases hr : st.remInputs with
    | nil => exact absurd hr hrem
    | cons b bs =>
      unfold scalar_iter_func
      rw [hok]
      show scalar_iter_finish st = _
      unfold scalar_iter_finish
      rw [hr]
  · intro hok hrem hne
    unfold scalar_iter_func
    rw [hok]
    show scalar_iter_finish st = _
    unfold scalar_iter_finish
    rw [hrem]
    simp [hne]

/-- Witness for C4: with one declared input batch of 5 rows, emitting 6
rows overruns; with two input batches the UDF consuming only one leaves
input behind; with one batch, producing only 4 rows mismatches. -/
theorem c4_scalar_iter_witness :
    scalar_iter_loop ⟨[], 5, 0, []⟩ [.emit 6, .pull] =
      .error .scalarIterOutputOverrun ∧
    scalar_iter_func [2, 3] [.pull, .emit 2] =
      .error .stopIterationFromScalarIter ∧
    scalar_iter_func [5] [.pull, .emit 4] =
      .error (.scalarIterLengthMismatch 4 5) := by
  refine ⟨?_, ?_, ?_⟩
  · exact (c4_scalar_iter [] [] ⟨[], 5, 0, []⟩ 6 [.pull]).1 (by decide)
  · exact (c4_scalar_iter [2, 3] [.pull, .emit 2] ⟨[3], 2, 2, [2]⟩ 0 []).2.1
      rfl (by simp)
  · exact (c4_scalar_iter [5] [.pull, .emit 4] ⟨[], 5, 4, [4]⟩ 0 []).2.2
      rfl rfl (by decide)

/-! ### Vectorized-batch adapters (worker.py lines 92-182) -/

/-- A Python value returned by a batch UDF chain: a pandas Series (which
has `__len__`) or an object without `__len__`. -/
inductive PyResult where
  | series (vals : List Int)
  | scalarObj
deriving DecidableEq, Repr

/-- `hasattr(result, "__len__")`. -/
def PyResult.hasLen : PyResult → Bool
  | .series _ => true
  | .scalarObj => false

/-- `len(result)` (only meaningful when the result has a length). -/
def PyResult.len : PyResult → Nat
  | .series vs => vs.length
  | .scalarObj => 0

/-- `verify_result_type` of `wrap_scalar_pandas_udf` /
`wrap_arrow_batch_udf` (worker.py lines 95-105 and 154-164): a result
without `__len__` raises `UDF_RETURN_TYPE` naming the expected pandas
container, which depends on whether the declared return type is a
struct. -/
def verify_result_type (return_type_struct : Bool) (result : PyResult) :
    Except PySparkError PyResult :=
  if !result.hasLen then
    .error (.udfReturnType
      (if return_type_struct then "pandas.DataFrame" else "pandas.Series")
      "scalarObj")
  else
    .ok result

/-- `verify_result_length` (worker.py lines 107-116 and 166-175): a
result whose length differs from the input batch length raises
`SCHEMA_MISMATCH_FOR_PANDAS_UDF`. -/
def verify_result_length (result : PyResult) (length : Nat) :
    Except PySparkError PyResult :=
  if result.len != length then
    .error (.schemaMismatch length result.len)
  else
    .ok result

/-- `wrap_scalar_pandas_udf` (worker.py lines 92-123): the chain runs on
the whole batch and its result is type- and length-checked against the
length of the first argument column
(`len((list(a) + list(kw.values()))[0])`; keyword argument columns are
folded into `args` here).  The attached arrow return type is outside the
model. -/
def wrap_scalar_pandas_udf (f : List (List Int) → PyResult)
    (return_type_struct : Bool) (args : List (List Int)) :
    Except PySparkError PyResult :=
  do
    let r ← verify_result_type return_type_struct (f args)
    verify_result_length r (args.headD []).length

/-- `zip(*args)` over column lists: the rows of the batch, cut off at the
shortest column. -/
def zipRows (args : List (List Int)) : List (List Int) :=
  let n := ((args.map List.length).min?).getD 0
  (List.range n).map (fun i => args.map (fun s => s.getD i 0))

/-- `evaluate` of `wrap_arrow_batch_udf` (worker.py lines 142-152): the
per-row chain is applied to each zipped row and the results are collected
into one pandas Series.  The string/binary `result_func` coercion is the
identity on this value model. -/
def arrow_batch_evaluate (f : List Int → Int) (args : List (List Int)) :
    PyResult :=
  .series ((zipRows args).map f)

/-- `wrap_arrow_batch_udf` (worker.py lines 126-182): `evaluate` feeds the
same `verify_result_type` / `verify_result_length` pair as the scalar
pandas wrapper. -/
def wrap_arrow_batch_udf (f : List Int → Int) (return_type_struct : Bool)
    (args : List (List Int)) : Except PySparkError PyResult :=
  do
    let r ← verify_result_type return_type_struct (arrow_batch_evaluate f args)
    verify_result_length r (args.headD []).length

/-- Claim C5: for a non-empty argument list, a chain result whose length
differs from the first argument column's length makes the scalar pandas
wrapper fail with the schema-mismatch error and yield no result; a chain
result without a length fails with the return-type error instead; and the
arrow-batch wrapper likewise fails with the schema-mismatch error whenever
its evaluated series length differs from the first column's length. -/
theorem c5_batch_length_checks (f : List (List Int) → PyResult)
    (g : List Int → Int) (args : List (List Int)) (s : Bool)
    (vs : List Int) :
    (f args = .series vs → vs.length ≠ (args.headD []).length →
      wrap_scalar_pandas_udf f s args =
        .error (.schemaMismatch (args.headD []).length vs.length)) ∧
    (f args = .scalarObj →
      wrap_scalar_pandas_udf f s args =
        .error (.udfReturnType
          (if s then "pandas.DataFrame" else "pandas.Series") "scalarObj")) ∧
    ((zipRows args).length ≠ (args.headD []).length →
      wrap_arrow_batch_udf g s args =
        .error (.schemaMismatch (args.headD []).length (zipRows args).length)) := by
  refine ⟨?_, ?_, ?_⟩
  · intro hf hne
    unfold wrap_scalar_pandas_udf
    rw [hf]
    simp [verify_result_type, PyResult.hasLen, Bind.bind, Except.bind,
      verify_result_length, PyResult.len]
    simpa using hne
  · intro hf
    unfold wrap_scalar_pandas_udf
    rw [hf]
    simp [verify_result_type, PyResult.hasLen, Bind.bind, Except.bind]
  · intro hne
    unfold wrap_arrow_batch_udf arrow_batch_evaluate
    simp [verify_result_type, PyResult.hasLen, Bind.bind, Except.bind,
      verify_result_length, PyResult.len]
    simpa using hne

/-- Witness for C5: a 3-row input column with a 2-row result series, a
length-less result, and ragged arrow-batch columns of lengths 3 and 1. -/
theorem c5_batch_length_checks_witness :
    wrap_scalar_pandas_udf (fun _ => .series [1, 2]) false [[1, 2, 3]] =
      .error (.schemaMismatch 3 2) ∧
    wrap_scalar_pandas_udf (fun _ => .scalarObj) false [[1, 2, 3]] =
      .error (.udfReturnType "pandas.Series" "scalarObj") ∧
    wrap_arrow_batch_udf (fun r => r.headD 0) false [[1, 2, 3], [4]] =
      .error (.schemaMismatch 3 1) := by
  refine ⟨?_, ?_, ?_⟩
  · exact (c5_batch_length_checks (fun _ => .series [1, 2]) (fun r => r.headD 0)
      [[1, 2, 3]] false [1, 2]).1 rfl (by decide)
  · exact (c5_batch_length_checks (fun _ => .scalarObj) (fun r => r.headD 0)
      [[1, 2, 3]] false []).2.1 rfl
  · exact (c5_batch_length_checks (fun _ => .series [1, 2]) (fun r => r.headD 0)
      [[1, 2, 3], [4]] false []).2.2 (by decide)

/-! ### UDTF handler validation (worker.py `read_udtf`, lines 741-759) -/

/-- A UDTF handler class, reduced to which of the two lifecycle methods
its instances expose. -/
structure UdtfHandlerClass where
  hasEval : Bool
  hasTerminate : Bool
deriving DecidableEq, Repr

/-- `hasattr(udtf, "eval")` for the object built by `read_udtf` (lines
742-746): with partition-key columns the object is a `UDTFWithPartitions`,
whose class defines `eval` (line 701), so the probe succeeds regardless of
the wrapped handler; without them the object is a handler instance. -/
def constructed_udtf_has_eval (handler : UdtfHandlerClass)
    (partition_child_indexes : List Nat) : Bool :=
  if partition_child_indexes.length > 0 then true else handler.hasEval

/-- The validation step of `read_udtf` (worker.py lines 753-759): raise
the missing-eval error when the constructed object lacks `eval`. -/
def validate_udtf (handler : UdtfHandlerClass)
    (partition_child_indexes : List Nat) : Except PySparkError Unit :=
  if !(constructed_udtf_has_eval handler partition_child_indexes) then
    .error .missingEvalMethod
  else
    .ok ()

/-- First row evaluation through `UDTFWithPartitions.eval` (worker.py line
712): `self._udtf.eval` is read off the wrapped handler instance, raising
`AttributeError` when that handler has no `eval`. -/
def wrapper_eval_first_row (handler : UdtfHandlerClass) :
    Except PySparkError Unit :=
  if !handler.hasEval then .error (.attributeError "eval") else .ok ()

/-- Counterexample to C6 as stated: with partition-key columns declared,
a handler without `eval` passes validation (no missing-eval error is
raised before rows are evaluated); the failure only appears as an
`AttributeError` when the first row reaches the wrapper. -/
theorem c6_counterexample :
    validate_udtf ⟨false, true⟩ [0] = .ok () ∧
    wrapper_eval_first_row ⟨false, true⟩ = .error (.attributeError "eval") := by
  exact ⟨rfl, rfl⟩

/-- Claim C6 (corrected): without partition-key columns, a handler that
lacks `eval` is rejected at validation time with the missing-eval error;
with partition-key columns the validation always passes, because the
partition-aware wrapper itself exposes `eval`, and a handler lacking
`eval` only fails with an `AttributeError` once a row is evaluated. -/
theorem c6_amended (handler : UdtfHandlerClass)
    (partition_child_indexes : List Nat) :
    (partition_child_indexes = [] → handler.hasEval = false →
      validate_udtf handler partition_child_indexes =
        .error .missingEvalMethod) ∧
    (partition_child_indexes ≠ [] →
      validate_udtf handler partition_child_indexes = .ok () ∧
      (handler.hasEval = false →
        wrapper_eval_first_row handler = .error (.attributeError "eval"))) := by
  constructor
  · intro hidx heval
    subst hidx
    unfold validate_udtf constructed_udtf_has_eval
    simp [heval]
  · intro hidx
    constructor
    · unfold validate_udtf constructed_udtf_has_eval
      cases partition_child_indexes with
      | nil => exact absurd rfl hidx
      | cons i rest => simp
    · intro heval
      unfold wrapper_eval_first_row
      simp [heval]

/-- Witness for C6: a handler without `eval` is rejected when no
partition-key columns are declared, and accepted (failing only at the
first row) when column 0 is a partition key. -/
theorem c6_amended_witness :
    validate_udtf ⟨false, true⟩ [] = .error .missingEvalMethod ∧
    (validate_udtf ⟨false, true⟩ [0] = .ok () ∧
      wrapper_eval_first_row ⟨false, true⟩ = .error (.attributeError "eval")) := by
  constructor
  · exact (c6_amended ⟨false, true⟩ []).1 rfl rfl
  · refine ⟨((c6_amended ⟨false, true⟩ [0]).2 (by simp)).1,
      ((c6_amended ⟨false, true⟩ [0]).2 (by simp)).2 rfl⟩

/-! ### Function chains (worker.py `chain` line 79-81, `read_single_udf` lines 557-572) -/

/-- `chain` (worker.py lines 79-81): feed the output of `f` into `g`. -/
def chain (f g : Int → Int) : Int → Int :=
  fun a => g (f a)

/-- One step of the decode loop of `read_single_udf` (worker.py lines
557-563): the first `(callable, return_type)` pair initialises the
accumulator, each later pair is chained onto it; the loop variable
`return_type` always keeps the pair just read. -/
def chain_step (acc : Option ((Int → Int) × Nat))
    (p : (Int → Int) × Nat) : Option ((Int → Int) × Nat) :=
  match acc with
  | none => some p
  | some cf => some (chain cf.1 p.1, p.2)

/-- The decode loop of `read_single_udf` over the deserialized
`(callable, return_type)` pairs; return types are abstract tags. -/
def read_chained_func (pairs : List ((Int → Int) × Nat)) :
    Option ((Int → Int) × Nat) :=
  pairs.foldl chain_step none

/-- Manual left-to-right composition: the output of stage `i` feeds stage
`i + 1`. -/
def compose_ltr (fs : List (Int → Int)) (x : Int) : Int :=
  fs.foldl (fun v f => f v) x

theorem chain_foldl (pairs : List ((Int → Int) × Nat)) :
    ∀ (cf : Int → Int) (rt0 : Nat), ∃ g rt,
      pairs.foldl chain_step (some (cf, rt0)) = some (g, rt) ∧
      (∀ x, g x = compose_ltr (pairs.map Prod.fst) (cf x)) ∧
      rt = (pairs.map Prod.snd).getLastD rt0 := by
  induction pairs with
  | nil =>
    intro cf rt0
    exact ⟨cf, rt0, rfl, fun x => rfl, rfl⟩
  | cons p rest ih =>
    intro cf rt0
    obtain ⟨g, rt, h1, h2, h3⟩ := ih (chain cf p.1) p.2
    refine ⟨g, rt, ?_, ?_, ?_⟩
    · simpa [chain_step] using h1
    · intro x
      rw [h2 x]
      rfl
    · rw [h3, List.map_cons, List.getLastD_cons]

/-- Claim C7: decoding a non-empty list of `(callable, return_type)`
pairs yields a function extensionally equal to composing the callables
left-to-right, and retains exactly the last pair's return type. -/
theorem c7_chain_composition (pairs : List ((Int → Int) × Nat))
    (h : pairs ≠ []) :
    ∃ g rt, read_chained_func pairs = some (g, rt) ∧
      (∀ x, g x = compose_ltr (pairs.map Prod.fst) x) ∧
      (pairs.map Prod.snd).getLast? = some rt := by
  match pairs, h with
  | p :: rest, _ =>
    obtain ⟨g, rt, h1, h2, h3⟩ := chain_foldl rest p.1 p.2
    refine ⟨g, rt, ?_, ?_, ?_⟩
    · simpa [read_chained_func, chain_step] using h1
    · intro x
      exact h2 x
    · rw [List.map_cons, List.getLast?_cons, h3]
      simp

/-- Witness for C7: a concrete three-stage chain. -/
theorem c7_chain_composition_witness :
    ∃ g rt,
      read_chained_func
        [(fun x => x + 1, 10), (fun x => x * 2, 20), (fun x => x + 3, 30)]
        = some (g, rt) ∧
      (∀ x, g x = compose_ltr
        [fun x => x + 1, fun x => x * 2, fun x => x + 3] x) ∧
      ([10, 20, 30] : List Nat).getLast? = some rt := by
  have h := c7_chain_composition
    [(fun x => x + 1, 10), (fun x => x * 2, 20), (fun x => x + 3, 30)]
    (by simp)
  simpa using h

/-! ### Bounded window aggregation (worker.py lines 496-529) -/

/-- `s.iloc[b:e]` on a series with non-negative window bounds: the
half-open slice `[b, e)`, clamped to the series length. -/
def series_iloc_slice (s : List Int) (b e : Nat) : List Int :=
  (s.drop b).take (e - b)

/-- `wrapped` inside `wrap_bounded_window_agg_pandas_udf` (worker.py
lines 499-527): for each index `i` of the begin array, slice every
argument series to `[begin_array[i], end_array[i])` and apply the chain,
collecting one scalar per window into a result series.  Keyword-argument
series are folded into `args`; the attached arrow return type is outside
the model. -/
def wrap_bounded_window_agg (f : List (List Int) → Int)
    (begin_index end_index : List Nat) (args : List (List Int)) :
    List Int :=
  (List.range begin_index.length).map (fun i =>
    f (args.map (fun s =>
      series_iloc_slice s (begin_index.getD i 0) (end_index.getD i 0))))

/-- Claim C8: with parallel begin/end arrays of length `n`, the bounded
window adapter returns exactly `n` result rows, and row `i` is the chain
applied to every argument series sliced to `[begin[i], end[i])`. -/
theorem c8_bounded_window (f : List (List Int) → Int)
    (begin_index end_index : List Nat) (args : List (List Int)) (n : Nat)
    (hb : begin_index.length = n) (he : end_index.length = n) :
    (wrap_bounded_window_agg f begin_index end_index args).length = n ∧
    ∀ i, i < n →
      (wrap_bounded_window_agg f begin_index end_index args).getD i 0 =
        f (args.map (fun s =>
          (s.drop (begin_index.getD i 0)).take
            (end_index.getD i 0 - begin_index.getD i 0))) := by
  constructor
  · simp [wrap_bounded_window_agg, hb]
  · intro i hi
    unfold wrap_bounded_window_agg
    rw [List.getD_eq_getElem?_getD, List.getElem?_map, List.getElem?_range
      (by omega : i < begin_index.length)]
    rfl

/-- Witness for C8 (the spec's own example): `begin = [0, 1]`,
`end = [2, 3]` over one 3-row argument series with a summing chain yields
exactly the two windowed sums. -/
theorem c8_bounded_window_witness :
    (wrap_bounded_window_agg (fun ls => (ls.headD []).foldl (fun a b => a + b) 0)
        [0, 1] [2, 3] [[10, 20, 30]]).length = 2 ∧
    ∀ i, i < 2 →
      (wrap_bounded_window_agg (fun ls => (ls.headD []).foldl (fun a b => a + b) 0)
          [0, 1] [2, 3] [[10, 20, 30]]).getD i 0 =
        (fun ls => (ls.headD []).foldl (fun a b => a + b) 0)
          (([[10, 20, 30]] : List (List Int)).map (fun s =>
            (s.drop (([0, 1] : List Nat).getD i 0)).take
              (([2, 3] : List Nat).getD i 0 - ([0, 1] : List Nat).getD i 0))) :=
  c8_bounded_window (fun ls => (ls.headD []).foldl (fun a b => a + b) 0)
    [0, 1] [2, 3] [[10, 20, 30]] 2 rfl rfl

/-! ### Task preamble (worker.py `main`, lines 1210-1220) -/

/-- What the worker does with the start of the framed protocol stream. -/
inductive WorkerOutcome where
  | exited (code : Int) (unread : List Int)
  | running (unread : List Int)
deriving DecidableEq, Repr

/-- The start of `main` (worker.py lines 1211-1220): the first protocol
field is the partition index (`split_index`); the value `-1` makes the
worker call `sys.exit(-1)` at once.  Otherwise the python-version check,
the barrier flag, the bound port and the secret are read next (four more
fields here).  `unread` is what remains on the stream. -/
def main_preamble (stream : List Int) : WorkerOutcome :=
  let split_index := stream.headD 0
  if split_index = -1 then
    .exited (-1) (stream.drop 1)
  else
    .running ((stream.drop 1).drop 4)

/-- Claim C9: a task whose first protocol field is `-1` makes the worker
exit with the non-zero status `-1` leaving every further protocol field
unread, while any other first field lets the worker read on. -/
theorem c9_abort_sentinel (rest : List Int) :
    (main_preamble ((-1) :: rest) = .exited (-1) rest ∧ (-1 : Int) ≠ 0) ∧
    (∀ s : Int, s ≠ -1 → ∀ more : List Int,
      main_preamble (s :: more) = .running (more.drop 4)) := by
  constructor
  · constructor
    · unfold main_preamble
      simp
    · decide
  · intro s hs more
    unfold main_preamble
    simp [hs]

/-- Witness for C9: first field `0` continues past the preamble. -/
theorem c9_abort_sentinel_witness :
    main_preamble (0 :: [7, 8, 9, 10, 11]) =
      .running (([7, 8, 9, 10, 11] : List Int).drop 4) :=
  (c9_abort_sentinel []).2 0 (by decide) [7, 8, 9, 10, 11]

/-! ### Generic batched-UDF mapper (worker.py `read_udfs.mapper`, lines 1183-1193) -/

/-- The mapper's result: a single UDF's value directly, or a tuple of all
UDF values. -/
inductive MapperResult where
  | single (v : Int)
  | multi (vs : List Int)
deriving DecidableEq, Repr

/-- `read_udfs.mapper` for the generic batched path (worker.py lines
1183-1193): apply every decoded UDF to its offset-selected arguments in
decode order; a single result is returned bare, more are returned as a
tuple.  Keyword-argument offsets are folded into the offset list. -/
def udfs_mapper (udfs : List (List Nat × (List Int → Int)))
    (row : List Int) : MapperResult :=
  let result := udfs.map (fun u => u.2 (u.1.map (fun o => row.getD o 0)))
  match result with
  | [r] => .single r
  | rs => .multi rs

/-- Claim C10: with exactly one decoded UDF the mapper returns that UDF's
value bare (not wrapped in a 1-tuple); with two or more it returns the
tuple of all their values in decode order. -/
theorem c10_mapper_shape (udfs : List (List Nat × (List Int → Int)))
    (row : List Int) :
    (∀ off f, udfs = [(off, f)] →
      udfs_mapper udfs row = .single (f (off.map (fun o => row.getD o 0)))) ∧
    (2 ≤ udfs.length →
      udfs_mapper udfs row =
        .multi (udfs.map (fun u => u.2 (u.1.map (fun o => row.getD o 0))))) := by
  constructor
  · rintro off f rfl
    rfl
  · intro h2
    match udfs, h2 with
    | u1 :: u2 :: rest, _ => rfl

/-- Witness for C10: one incrementing UDF gives a bare value, two UDFs
give the pair of their values. -/
theorem c10_mapper_shape_witness :
    udfs_mapper [([0], fun a => a.headD 0 + 1)] [41] = .single 42 ∧
    udfs_mapper [([0], fun a => a.headD 0 + 1), ([1], fun a => a.headD 0)]
      [41, 7] = .multi [42, 7] := by
  constructor
  · have h := (c10_mapper_shape [([0], fun a => a.headD 0 + 1)] [41]).1
      [0] (fun a => a.headD 0 + 1) rfl
    simpa using h
  · have h := (c10_mapper_shape
      [([0], fun a => a.headD 0 + 1), ([1], fun a => a.headD 0)] [41, 7]).2
      (by simp)
    simpa using h

end SparkWorker
